import Mathlib

/-!
Verification development for the sentiment-analysis service.

The repository's own Python sources (`src/services/sentiment_analyzer.py`,
`src/services/external_api.py`, `src/routes/sentiment.py`) are embedded
shallowly below: Python floats become `ℚ` (or `ℝ` where a square root is
involved), dictionaries become structures, raised exceptions become
`Except` values, and the external HTTP call becomes an explicit outcome
parameter supplied by the caller.  The VADER scorer itself lives in the
`nltk` library rather than in this repository, so it is modelled from the
specification (sections 4.1-4.4), as marked on each such definition.
-/

/-- The three sentiment labels, from the `SentimentLabel` enum in
`src/services/sentiment_analyzer.py`. -/
inductive SentimentLabel where
  | POSITIVE
  | NEGATIVE
  | NEUTRAL
deriving DecidableEq

/-- Embeds `SentimentAnalyzer.get_sentiment_label`
(`src/services/sentiment_analyzer.py`): compound scores at least `0.05`
are positive, at most `-0.05` negative, and anything in between neutral.
The Python float is modelled as a real number. -/
noncomputable def get_sentiment_label (compound_score : ℝ) : SentimentLabel :=
  open Classical in
  if compound_score ≥ 0.05 then SentimentLabel.POSITIVE
  else if compound_score ≤ -0.05 then SentimentLabel.NEGATIVE
  else SentimentLabel.NEUTRAL

/-- Modelled from the spec: the Lexicon Store (spec section 4.1) of the VADER
scorer, which lives in the `nltk` library and is absent from `src/`.  It
maps a normalized word to an optional base intensity and classifies words
as boosters, dampeners or negators. -/
structure Lexicon where
  intensity : String → Option ℚ
  booster : String → Bool
  dampener : String → Bool
  negator : String → Bool

/-- Modelled from the spec: a token (spec section 3) with its original text,
lowercased normalized form, and position. -/
structure Token where
  text : String
  normalized : String
  position : ℕ

/-- A character that belongs to a word token (letters and digits); anything
else is punctuation or whitespace. -/
def isWordChar (c : Char) : Bool := c.isAlphanum

/-- Lowercasing, character by character (the normalized form of a token). -/
def lowerStr (s : String) : String := String.mk (s.toList.map Char.toLower)

/-- Modelled from the spec: the raw splitting pass of the Tokenizer (spec
section 4.2): split on whitespace and punctuation boundaries, keeping each
punctuation character as its own token.  The second argument accumulates
the current word in reverse. -/
def splitRaw : List Char → List Char → List String
  | [], acc => if acc.isEmpty then [] else [String.mk acc.reverse]
  | c :: cs, acc =>
    if c.isWhitespace then
      (if acc.isEmpty then [] else [String.mk acc.reverse]) ++ splitRaw cs []
    else if isWordChar c then splitRaw cs (c :: acc)
    else
      (if acc.isEmpty then [] else [String.mk acc.reverse]) ++
        [String.mk [c]] ++ splitRaw cs []

/-- Modelled from the spec: `tokenize` (spec section 4.2) produces a token
sequence with positions and lowercased normalized forms; the empty string
yields the empty sequence. -/
def tokenize (text : String) : List Token :=
  (splitRaw text.toList []).enum.map (fun p => ⟨p.2, lowerStr p.2, p.1⟩)

/-- Negation scaling factor (spec section 4.3, a fixed tunable constant). -/
def NEGATION_FACTOR : ℚ := 74 / 100

/-- Booster/dampener magnitude delta (spec section 4.3). -/
def BOOSTER_DELTA : ℚ := 29 / 100

/-- ALL-CAPS emphasis delta (spec section 4.3, a fixed tunable constant). -/
def CAPS_DELTA : ℚ := 733 / 1000

/-- Per-exclamation emphasis bonus (spec section 4.3, step 5). -/
def EMPHASIS_BONUS : ℚ := 292 / 1000

/-- Bound of the lexicon's valence range (spec section 3: intensities lie in
a fixed range such as `[-4, 4]`). -/
def MAX_VALENCE : ℚ := 4

/-- Normalization smoothing constant (spec section 4.4, commonly 15). -/
def ALPHA : ℚ := 15

/-- Clip a valence to the lexicon's valence range (spec section 4.3, edge
cases). -/
def clipValence (v : ℚ) : ℚ := max (-MAX_VALENCE) (min MAX_VALENCE v)

/-- Add `d` to the magnitude of `v`, preserving its sign; zero valences are
left untouched (spec section 4.3, step 2). -/
def addMagnitude (v d : ℚ) : ℚ :=
  if 0 < v then v + d else if v < 0 then v - d else v

/-- The window of at most 3 tokens preceding position `i` (spec section 4.3,
step 2; the lookback never runs past the start of the sequence). -/
def windowBefore (tokens : List Token) (i : ℕ) : List Token :=
  (tokens.take i).drop (i - 3)

/-- A token written in all capital letters (it has at least one letter and
no lowercase letter). -/
def isAllCaps (s : String) : Bool :=
  s.toList.any Char.isAlpha && s.toList.all (fun c => !c.isAlpha || c.isUpper)

/-- Modelled from the spec: the ALL-CAPS emphasis applies only when the text
mixes all-caps tokens with other lettered tokens (spec section 4.3,
step 3). -/
def hasCapsDifferential (tokens : List Token) : Bool :=
  tokens.any (fun t => isAllCaps t.text) &&
  tokens.any (fun t => t.text.toList.any Char.isAlpha && !isAllCaps t.text)

/-- Modelled from the spec: the per-token valence of the Heuristic Scorer
(spec section 4.3, steps 1-3): lexicon lookup, negation within the
3-token window (sign flip scaled by `NEGATION_FACTOR`), booster/dampener
magnitude delta, ALL-CAPS emphasis, and clipping to the valence range.
Tokens without a lexicon entry contribute nothing. -/
def tokenValence (lex : Lexicon) (tokens : List Token) (capsDiff : Bool)
    (i : ℕ) (t : Token) : Option ℚ :=
  match lex.intensity t.normalized with
  | none => none
  | some base =>
    let w := windowBefore tokens i
    let v1 := if w.any (fun p => lex.negator p.normalized) then
        -base * NEGATION_FACTOR else base
    let v2 :=
      if w.any (fun p => lex.booster p.normalized) then addMagnitude v1 BOOSTER_DELTA
      else if w.any (fun p => lex.dampener p.normalized) then
        addMagnitude v1 (-BOOSTER_DELTA)
      else v1
    let v3 := if capsDiff && isAllCaps t.text then addMagnitude v2 CAPS_DELTA else v2
    some (clipValence v3)

/-- The modified valences of all tokens, aligned with the token sequence. -/
def tokenValences (lex : Lexicon) (tokens : List Token) : List (Option ℚ) :=
  tokens.enum.map (fun p => tokenValence lex tokens (hasCapsDifferential tokens) p.1 p.2)

/-- Modelled from the spec: the ScoreAccumulator (spec section 3) holding
the positive contribution sum, the (signed, nonpositive) negative
contribution sum, and the neutral token count. -/
structure ScoreAccumulator where
  positive_sum : ℚ
  negative_sum : ℚ
  neutral_count : ℚ

/-- Modelled from the spec: accumulation step (spec section 4.3, step 4):
positive valences feed `positive_sum`, negative valences feed
`negative_sum`, and unknown or zero-valence tokens bump `neutral_count`. -/
def accumStep (acc : ScoreAccumulator) (v : Option ℚ) : ScoreAccumulator :=
  match v with
  | none => { acc with neutral_count := acc.neutral_count + 1 }
  | some x =>
    if 0 < x then { acc with positive_sum := acc.positive_sum + x }
    else if x < 0 then { acc with negative_sum := acc.negative_sum + x }
    else { acc with neutral_count := acc.neutral_count + 1 }

/-- The sign (as `1`, `-1` or `0`) of the last nonzero scored valence; the
emphasis pass attaches its bonus to this sign. -/
def lastScoredSign (vals : List (Option ℚ)) : ℚ :=
  vals.foldl (fun s v =>
    match v with
    | some x => if 0 < x then 1 else if x < 0 then -1 else s
    | none => s) 0

/-- The number of exclamation-mark tokens, capped at 4 so the bonus stays
bounded (spec section 4.3, step 5). -/
def emphasisCount (tokens : List Token) : ℕ :=
  min (tokens.countP (fun t => t.text = "!")) 4

/-- Modelled from the spec: the exclamation emphasis pass (spec section 4.3,
step 5): a bounded bonus is added with the sign of the nearest preceding
scored token's contribution. -/
def applyEmphasis (tokens : List Token) (vals : List (Option ℚ))
    (acc : ScoreAccumulator) : ScoreAccumulator :=
  let bonus : ℚ := (emphasisCount tokens : ℚ) * EMPHASIS_BONUS
  let s := lastScoredSign vals
  if 0 < s then { acc with positive_sum := acc.positive_sum + bonus }
  else if s < 0 then { acc with negative_sum := acc.negative_sum - bonus }
  else acc

/-- Modelled from the spec: `score` (spec section 4.3) walks the tokens,
accumulates modified valences, and applies the emphasis pass. -/
def scoreTokens (lex : Lexicon) (tokens : List Token) : ScoreAccumulator :=
  let vals := tokenValences lex tokens
  applyEmphasis tokens vals (vals.foldl accumStep ⟨0, 0, 0⟩)

/-- Total magnitude-plus-neutral-count used to normalize the proportions
(spec section 4.4). -/
def totalMagnitude (acc : ScoreAccumulator) : ℚ :=
  acc.positive_sum + |acc.negative_sum| + acc.neutral_count

/-- Rounding to 3 decimal digits, applied to each returned proportion (spec
section 4.4). -/
def round3 (q : ℚ) : ℚ := (round (q * 1000) : ℤ) / 1000

/-- Modelled from the spec: the positive proportion of the Score Normalizer
(spec section 4.4), with the division-by-zero guard returning 0. -/
def posProportion (acc : ScoreAccumulator) : ℚ :=
  if totalMagnitude acc = 0 then 0
  else round3 (acc.positive_sum / totalMagnitude acc)

/-- Modelled from the spec: the negative proportion (spec section 4.4). -/
def negProportion (acc : ScoreAccumulator) : ℚ :=
  if totalMagnitude acc = 0 then 0
  else round3 (|acc.negative_sum| / totalMagnitude acc)

/-- Modelled from the spec: the neutral proportion (spec section 4.4); the
division-by-zero guard yields the defined neutral result 1. -/
def neuProportion (acc : ScoreAccumulator) : ℚ :=
  if totalMagnitude acc = 0 then 1
  else round3 (acc.neutral_count / totalMagnitude acc)

/-- Modelled from the spec: the squashing map of the Score Normalizer (spec
section 4.4): `x / sqrt (x^2 + alpha)`. -/
noncomputable def squash (x : ℝ) : ℝ := x / Real.sqrt (x ^ 2 + (ALPHA : ℝ))

/-- Modelled from the spec: the compound score (spec section 4.4):
the squashed raw sum, or 0 under the division-by-zero guard. -/
noncomputable def compoundOf (acc : ScoreAccumulator) : ℝ :=
  if totalMagnitude acc = 0 then 0
  else squash ((acc.positive_sum + acc.negative_sum : ℚ) : ℝ)

/-- The four scores returned by the VADER scorer, keyed `pos`, `neg`, `neu`
and `compound` in the Python dict. -/
structure PolarityScores where
  pos : ℚ
  neg : ℚ
  neu : ℚ
  compound : ℝ

/-- Modelled from the spec: `polarity_scores` — the whole VADER pipeline
(spec sections 4.2-4.4), which in the code is `nltk`'s
`SentimentIntensityAnalyzer.polarity_scores` called by
`SentimentAnalyzer.analyze_with_vader` and absent from `src/`. -/
noncomputable def polarity_scores (lex : Lexicon) (text : String) : PolarityScores :=
  let acc := scoreTokens lex (tokenize text)
  ⟨posProportion acc, negProportion acc, neuProportion acc, compoundOf acc⟩

/-- The result of `SentimentAnalyzer.analyze`
(`src/services/sentiment_analyzer.py`): the nested `scores` dict with keys
`positive`, `negative`, `neutral`, `compound`, plus the label and the
echoed input text. -/
structure AnalyzeResult where
  positive : ℚ
  negative : ℚ
  neutral : ℚ
  compound : ℝ
  label : SentimentLabel
  text : String

/-- Embeds `SentimentAnalyzer.analyze`
(`src/services/sentiment_analyzer.py`): obtain the VADER scores, read off
the compound score, derive the label with `get_sentiment_label`, and
package everything up. -/
noncomputable def SentimentAnalyzer.analyze (lex : Lexicon) (text : String) :
    AnalyzeResult :=
  let vader_scores := polarity_scores lex text
  let compound_score := vader_scores.compound
  ⟨vader_scores.pos, vader_scores.neg, vader_scores.neu, compound_score,
    get_sentiment_label compound_score, text⟩

/-- Embeds the module-level `analyze_text`
(`src/services/sentiment_analyzer.py`), whose `try/except` re-raise is
modelled with `Except`.  The embedded `analyze` is a total function, so
the error branch is unreachable. -/
noncomputable def analyze_text (lex : Lexicon) (text : String) :
    Except String AnalyzeResult :=
  Except.ok (SentimentAnalyzer.analyze lex text)

/-- Nonnegativity bounds maintained by the accumulator: the positive sum
never goes negative, the negative sum never goes positive, and the neutral
count never goes negative. -/
def AccBounds (acc : ScoreAccumulator) : Prop :=
  0 ≤ acc.positive_sum ∧ acc.negative_sum ≤ 0 ∧ 0 ≤ acc.neutral_count

/-- Validity of an analysis result, per the spec's SentimentResult invariant
(spec section 3): nonnegative proportions that sum to 1 up to the rounding
epsilon, a compound score in the unit interval, and a label that is the
threshold function of the compound score. -/
def ValidResult (r : AnalyzeResult) : Prop :=
  0 ≤ r.positive ∧ 0 ≤ r.negative ∧ 0 ≤ r.neutral ∧
  |r.positive + r.negative + r.neutral - 1| ≤ 3 / 2000 ∧
  -1 ≤ r.compound ∧ r.compound ≤ 1 ∧
  r.label = get_sentiment_label r.compound

/-- A small concrete lexicon: `good` has intensity 1, `bad` has intensity
-1, and there are no modifier words. -/
def sampleLexicon : Lexicon :=
  ⟨fun w => if w = "good" then some 1 else if w = "bad" then some (-1) else none,
   fun _ => false, fun _ => false, fun _ => false⟩

/-- The supported provider enum `APIProvider` from
`src/services/external_api.py`; `huggingface` is its only member. -/
inductive APIProvider where
  | huggingface
deriving DecidableEq

/-- The `APIProvider(value)` enum constructor: `some` on the enum's value
string, `none` models the `ValueError` Python raises otherwise. -/
def APIProvider.ofString (s : String) : Option APIProvider :=
  if s = "huggingface" then some APIProvider.huggingface else none

/-- The `ExternalAPIError` exception from `src/services/external_api.py`,
carrying provider, message and optional HTTP status code. -/
structure ExternalAPIError where
  provider : String
  message : String
  status_code : Option ℤ
deriving DecidableEq

/-- The string `str(e)` of an `ExternalAPIError`, from its `__init__`
format string. -/
def ExternalAPIError.toMessage (e : ExternalAPIError) : String :=
  e.provider ++ " API Error: " ++ e.message ++ " (Status: " ++
    (match e.status_code with
     | none => "None"
     | some n => toString n) ++ ")"

/-- The JSON object extracted from a HuggingFace response: an optional
`label` field (absent models a dict without the key) and an optional
`score` field (read with default 0.0 in the source). -/
structure HFJson where
  label : Option String
  score : Option ℚ
deriving DecidableEq

/-- The parsed body of a HuggingFace HTTP response: either a JSON list or
a single JSON object. -/
inductive HFBody where
  | list (items : List HFJson)
  | obj (o : HFJson)
deriving DecidableEq

/-- One outcome of the HTTP POST to the HuggingFace endpoint: a
`requests.exceptions.RequestException`, or a response with a status code
and parsed JSON body. -/
inductive HFOutcome where
  | requestError (msg : String)
  | response (status : ℤ) (body : HFBody)
deriving DecidableEq

/-- The list-unwrapping step of `analyze_with_huggingface`: a nonempty
list is replaced by its first element; an empty list stays a list, and
`"label" in result` is then false. -/
def unwrapBody : HFBody → Option HFJson
  | HFBody.list (x :: _) => some x
  | HFBody.list [] => none
  | HFBody.obj o => some o

/-- Python truthiness of the `HUGGINGFACE_API_KEY` environment value:
set and nonempty. -/
def keySet : Option String → Bool
  | none => false
  | some s => s ≠ ""

/-- The inner `SentimentResult` dict from `src/services/external_api.py`
(the `raw_response` field is dropped from the model). -/
structure SentimentResult where
  provider : APIProvider
  text : String
  sentiment : String
  score : ℚ
deriving DecidableEq

/-- Embeds one attempt of `SentimentAnalysisAPI.analyze_with_huggingface`
(`src/services/external_api.py`), the body under the backoff decorator:
check the API key, surface request errors and non-200 statuses as
`ExternalAPIError`, unwrap the JSON, lowercase the label, map it onto a
sign, and return the standardized result with `score = abs(score) * sign`. -/
def huggingface_attempt (apiKey : Option String) (outcome : HFOutcome)
    (text : String) : Except ExternalAPIError SentimentResult :=
  if !keySet apiKey then
    Except.error ⟨"HuggingFace", "API key not set", some 400⟩
  else
    match outcome with
    | HFOutcome.requestError msg =>
      Except.error ⟨"HuggingFace", msg, none⟩
    | HFOutcome.response status body =>
      if status ≠ 200 then
        Except.error ⟨"HuggingFace",
          "Request failed with status " ++ toString status, some status⟩
      else
        match unwrapBody body with
        | some o =>
          match o.label with
          | some lbl =>
            let sentiment0 := lowerStr lbl
            let score0 := o.score.getD 0
            let sentiment :=
              if sentiment0 = "positive" then "positive"
              else if sentiment0 = "negative" then "negative"
              else "neutral"
            let score_sign : ℚ :=
              if sentiment0 = "positive" then 1
              else if sentiment0 = "negative" then -1
              else 0
            Except.ok ⟨APIProvider.huggingface, text, sentiment,
              |score0| * score_sign⟩
          | none =>
            Except.error ⟨"HuggingFace", "Unexpected response format", some 200⟩
        | none =>
          Except.error ⟨"HuggingFace", "Unexpected response format", some 200⟩

/-- The wait, in seconds, before retry number `i` under `backoff.expo`
(base 2): 1, 2, 4, ... -/
def backoffWait (i : ℕ) : ℚ := 2 ^ i

/-- Retry combinator modelling the `@backoff.on_exception(backoff.expo,
..., max_tries=3)` decorator: run attempt `i`, return on success, retry
after waiting `backoffWait i` while tries remain, and propagate the last
error when they run out.  Returns the result, the number of attempts
made, and the list of waits performed. -/
def retryExpo (f : ℕ → Except ExternalAPIError SentimentResult) :
    ℕ → ℕ → Except ExternalAPIError SentimentResult × ℕ × List ℚ
  | _, 0 => (Except.error ⟨"HuggingFace", "no tries", none⟩, 0, [])
  | i, 1 => (f i, 1, [])
  | i, n + 2 =>
    match f i with
    | Except.ok a => (Except.ok a, 1, [])
    | Except.error _ =>
      let r := retryExpo f (i + 1) (n + 1)
      (r.1, r.2.1 + 1, backoffWait i :: r.2.2)

/-- The bounded attempt count of the backoff decorator (`max_tries=3`). -/
def MAX_TRIES : ℕ := 3

/-- Embeds `SentimentAnalysisAPI.analyze_with_huggingface` with its
`backoff` decorator: up to `MAX_TRIES` attempts with exponential backoff.
`outcomes i` is the HTTP outcome of attempt `i`. -/
def analyze_with_huggingface (apiKey : Option String) (outcomes : ℕ → HFOutcome)
    (text : String) : Except ExternalAPIError SentimentResult × ℕ × List ℚ :=
  retryExpo (fun i => huggingface_attempt apiKey (outcomes i) text) 0 MAX_TRIES

/-- The guard `provider is not None and provider != APIProvider.HUGGINGFACE`
in `SentimentAnalysisAPI.analyze`; with a one-member enum it can only be
true for a value outside the enum. -/
def providerUnsupported : Option APIProvider → Bool
  | some p => p ≠ APIProvider.huggingface
  | none => false

/-- Embeds `SentimentAnalysisAPI.analyze` (`src/services/external_api.py`):
reject a provider other than HuggingFace with an unsupported-provider
error, then call the HuggingFace path if the key is set (re-wrapping its
error), and report that no provider is available otherwise. -/
def SentimentAnalysisAPI.analyze (apiKey : Option String)
    (outcomes : ℕ → HFOutcome) (text : String)
    (provider : Option APIProvider) : Except ExternalAPIError SentimentResult :=
  if providerUnsupported provider then
    Except.error ⟨"Provider", "Unsupported provider", some 400⟩
  else if keySet apiKey then
    match (analyze_with_huggingface apiKey outcomes text).1 with
    | Except.ok r => Except.ok r
    | Except.error e =>
      Except.error ⟨"HuggingFace", e.toMessage, e.status_code⟩
  else
    Except.error ⟨"All providers", "No sentiment analysis providers available", some 500⟩

/-- The dict returned by `analyze_with_external_api`
(`src/services/external_api.py`), with keys `text`, `provider`,
`sentiment`, `score` and `confidence`. -/
structure ExternalResult where
  text : String
  provider : APIProvider
  sentiment : String
  score : ℚ
  confidence : ℚ
deriving DecidableEq

/-- A value of the result dict, for spelling out the dict's key-value
pairs. -/
inductive DictValue where
  | str (s : String)
  | num (q : ℚ)
  | prov (p : APIProvider)
deriving DecidableEq

/-- The dict literal built at the end of `analyze_with_external_api`, as
an association list in source order. -/
def ExternalResult.toDict (r : ExternalResult) : List (String × DictValue) :=
  [("text", DictValue.str r.text),
   ("provider", DictValue.prov r.provider),
   ("sentiment", DictValue.str r.sentiment),
   ("score", DictValue.num r.score),
   ("confidence", DictValue.num r.confidence)]

/-- The keys of a dict in order. -/
def dictKeys (d : List (String × DictValue)) : List String := d.map Prod.fst

/-- The provider-string conversion step of `analyze_with_external_api`:
a falsy (absent or empty) provider gives `None`; otherwise the lowercased
string is converted to the enum, and on `ValueError` the code logs a
warning and defaults to HuggingFace. -/
def convertProvider : Option String → Option APIProvider
  | none => none
  | some s =>
    if s = "" then none
    else
      match APIProvider.ofString (lowerStr s) with
      | some p => some p
      | none => some APIProvider.huggingface

/-- Embeds the module-level `analyze_with_external_api`
(`src/services/external_api.py`): convert the provider string, run the
analysis, and return the result dict with `confidence = abs(score)`; any
exception is re-raised as a generic `Exception` string. -/
def analyze_with_external_api (apiKey : Option String) (outcomes : ℕ → HFOutcome)
    (text : String) (provider : Option String) : Except String ExternalResult :=
  match SentimentAnalysisAPI.analyze apiKey outcomes text (convertProvider provider) with
  | Except.ok r =>
    Except.ok ⟨text, r.provider, r.sentiment, r.score, |r.score|⟩
  | Except.error e =>
    Except.error ("External sentiment analysis failed: " ++ e.toMessage)

/-- The stored analysis row, from the `models.Analysis` constructor calls
in `src/routes/sentiment.py` (the `models` module itself is outside
`src/`): text, score, label and the owning user's id. -/
structure Analysis where
  text : String
  sentiment_score : ℚ
  sentiment_label : String
  user_id : ℕ
deriving DecidableEq

/-- One entry of the `/history` response in `src/routes/sentiment.py`. -/
structure HistoryEntry where
  text : String
  sentiment : String
  score : ℚ
  confidence : ℚ
  provider : String
deriving DecidableEq

/-- The response entry built from a stored analysis in
`get_analysis_history`: sentiment from the stored label, confidence the
absolute score, provider reported as `unknown`. -/
def historyEntryOf (a : Analysis) : HistoryEntry :=
  ⟨a.text, a.sentiment_label, a.sentiment_score, |a.sentiment_score|, "unknown"⟩

/-- Embeds `get_analysis_history` (`src/routes/sentiment.py`): the
database table is modelled as a list of rows, and the SQLAlchemy query
`filter(Analysis.user_id == current_user.id).all()` as a list filter. -/
def get_analysis_history (db : List Analysis) (uid : ℕ) : List HistoryEntry :=
  (db.filter (fun a => a.user_id = uid)).map historyEntryOf

/-- An outcome fixture whose every attempt succeeds: HTTP 200 with a
one-element list classifying the text POSITIVE at score 0.9. -/
def okOutcomes : ℕ → HFOutcome :=
  fun _ => HFOutcome.response 200 (HFBody.list [⟨some "POSITIVE", some (9/10)⟩])

/-- An outcome fixture whose every attempt raises a request exception. -/
def failOutcomes : ℕ → HFOutcome :=
  fun _ => HFOutcome.requestError "connection timed out"

/-- A stored analysis row belonging to user 1, for the C10 witness. -/
def analysisA : Analysis := ⟨"great product", 1, "positive", 1⟩

/-- A stored analysis row belonging to user 2, for the C10 witness. -/
def analysisB : Analysis := ⟨"awful service", -1, "negative", 2⟩

theorem get_sentiment_label_zero : get_sentiment_label 0 = SentimentLabel.NEUTRAL := by
  unfold get_sentiment_label
  rw [if_neg (by norm_num), if_neg (by norm_num)]

theorem abs_squash_le_one (x : ℝ) : |squash x| ≤ 1 := by
  unfold squash
  have hA : ((ALPHA : ℚ) : ℝ) = 15 := by norm_num [ALPHA]
  rw [hA]
  have hpos : (0:ℝ) < x ^ 2 + 15 := by positivity
  have hs : 0 < Real.sqrt (x ^ 2 + 15) := Real.sqrt_pos.mpr hpos
  rw [abs_div, abs_of_nonneg (Real.sqrt_nonneg _), div_le_one hs]
  calc |x| = Real.sqrt (x ^ 2) := by rw [Real.sqrt_sq_eq_abs]
    _ ≤ Real.sqrt (x ^ 2 + 15) := Real.sqrt_le_sqrt (by nlinarith)

theorem compoundOf_mem (acc : ScoreAccumulator) :
    -1 ≤ compoundOf acc ∧ compoundOf acc ≤ 1 := by
  unfold compoundOf
  split
  · norm_num
  · exact abs_le.mp (abs_squash_le_one _)

theorem abs_round3_sub_le (q : ℚ) : |round3 q - q| ≤ 1 / 2000 := by
  unfold round3
  have h : ((round (q * 1000) : ℤ) : ℚ) / 1000 - q
      = ((round (q * 1000) : ℤ) - q * 1000) / 1000 := by ring
  rw [h, abs_div]
  have h1000 : |(1000:ℚ)| = 1000 := by norm_num
  rw [h1000]
  have hr : |((round (q * 1000) : ℤ) : ℚ) - q * 1000| ≤ 1 / 2 := by
    rw [abs_sub_comm]
    exact abs_sub_round (q * 1000)
  linarith

theorem proportions_sum_close (acc : ScoreAccumulator) :
    |posProportion acc + negProportion acc + neuProportion acc - 1| ≤ 3 / 2000 := by
  by_cases h : totalMagnitude acc = 0
  · simp only [posProportion, negProportion, neuProportion, if_pos h]
    norm_num
  · simp only [posProportion, negProportion, neuProportion, if_neg h]
    have hsum : acc.positive_sum / totalMagnitude acc + |acc.negative_sum| / totalMagnitude acc
        + acc.neutral_count / totalMagnitude acc = 1 := by
      rw [div_add_div_same, div_add_div_same]
      exact div_self h
    have h1 := abs_round3_sub_le (acc.positive_sum / totalMagnitude acc)
    have h2 := abs_round3_sub_le (|acc.negative_sum| / totalMagnitude acc)
    have h3 := abs_round3_sub_le (acc.neutral_count / totalMagnitude acc)
    have key : round3 (acc.positive_sum / totalMagnitude acc)
        + round3 (|acc.negative_sum| / totalMagnitude acc)
        + round3 (acc.neutral_count / totalMagnitude acc) - 1
        = (round3 (acc.positive_sum / totalMagnitude acc) - acc.positive_sum / totalMagnitude acc)
        + (round3 (|acc.negative_sum| / totalMagnitude acc) - |acc.negative_sum| / totalMagnitude acc)
        + (round3 (acc.neutral_count / totalMagnitude acc) - acc.neutral_count / totalMagnitude acc) := by
      rw [← hsum]; ring
    rw [key]
    have t1 := abs_add (round3 (acc.positive_sum / totalMagnitude acc) - acc.positive_sum / totalMagnitude acc)
      (round3 (|acc.negative_sum| / totalMagnitude acc) - |acc.negative_sum| / totalMagnitude acc)
    have t2 := abs_add ((round3 (acc.positive_sum / totalMagnitude acc) - acc.positive_sum / totalMagnitude acc)
      + (round3 (|acc.negative_sum| / totalMagnitude acc) - |acc.negative_sum| / totalMagnitude acc))
      (round3 (acc.neutral_count / totalMagnitude acc) - acc.neutral_count / totalMagnitude acc)
    linarith

theorem accumStep_bounds (acc : ScoreAccumulator) (v : Option ℚ) (h : AccBounds acc) :
    AccBounds (accumStep acc v) := by
  obtain ⟨h1, h2, h3⟩ := h
  cases v with
  | none =>
    refine ⟨h1, h2, ?_⟩
    show 0 ≤ acc.neutral_count + 1
    linarith
  | some x =>
    by_cases hx : 0 < x
    · simp only [accumStep, if_pos hx]
      refine ⟨?_, h2, h3⟩
      show 0 ≤ acc.positive_sum + x
      linarith
    · by_cases hx2 : x < 0
      · simp only [accumStep, if_neg hx, if_pos hx2]
        refine ⟨h1, ?_, h3⟩
        show acc.negative_sum + x ≤ 0
        linarith
      · simp only [accumStep, if_neg hx, if_neg hx2]
        refine ⟨h1, h2, ?_⟩
        show 0 ≤ acc.neutral_count + 1
        linarith

theorem foldl_accumStep_bounds (l : List (Option ℚ)) (acc : ScoreAccumulator)
    (h : AccBounds acc) : AccBounds (l.foldl accumStep acc) := by
  induction l generalizing acc with
  | nil => exact h
  | cons v t ih => exact ih _ (accumStep_bounds _ _ h)

theorem applyEmphasis_bounds (tokens : List Token) (vals : List (Option ℚ))
    (acc : ScoreAccumulator) (h : AccBounds acc) :
    AccBounds (applyEmphasis tokens vals acc) := by
  obtain ⟨h1, h2, h3⟩ := h
  have hb : (0:ℚ) ≤ (emphasisCount tokens : ℚ) * EMPHASIS_BONUS :=
    mul_nonneg (by positivity) (by norm_num [EMPHASIS_BONUS])
  simp only [applyEmphasis]
  split_ifs with hs1 hs2
  · refine ⟨?_, h2, h3⟩
    show 0 ≤ acc.positive_sum + (emphasisCount tokens : ℚ) * EMPHASIS_BONUS
    linarith
  · refine ⟨h1, ?_, h3⟩
    show acc.negative_sum - (emphasisCount tokens : ℚ) * EMPHASIS_BONUS ≤ 0
    linarith
  · exact ⟨h1, h2, h3⟩

theorem scoreTokens_bounds (lex : Lexicon) (tokens : List Token) :
    AccBounds (scoreTokens lex tokens) := by
  unfold scoreTokens
  exact applyEmphasis_bounds _ _ _
    (foldl_accumStep_bounds _ _ ⟨le_refl 0, le_refl 0, le_refl 0⟩)

theorem round3_nonneg (q : ℚ) (h : 0 ≤ q) : 0 ≤ round3 q := by
  unfold round3
  have hr : (0:ℤ) ≤ round (q * 1000) := by
    rw [round_eq]
    exact Int.floor_nonneg.mpr (by linarith)
  have hc : (0:ℚ) ≤ ((round (q * 1000) : ℤ) : ℚ) := by exact_mod_cast hr
  linarith

theorem totalMagnitude_pos (acc : ScoreAccumulator) (h : AccBounds acc)
    (hne : totalMagnitude acc ≠ 0) : 0 < totalMagnitude acc := by
  obtain ⟨h1, h2, h3⟩ := h
  have habs : (0:ℚ) ≤ |acc.negative_sum| := abs_nonneg _
  have hge : 0 ≤ totalMagnitude acc := by unfold totalMagnitude; linarith
  exact lt_of_le_of_ne hge (Ne.symm hne)

theorem posProportion_nonneg (acc : ScoreAccumulator) (h : AccBounds acc) :
    0 ≤ posProportion acc := by
  unfold posProportion
  split
  · norm_num
  · next hne =>
    exact round3_nonneg _ (div_nonneg h.1 (le_of_lt (totalMagnitude_pos acc h hne)))

theorem negProportion_nonneg (acc : ScoreAccumulator) (h : AccBounds acc) :
    0 ≤ negProportion acc := by
  unfold negProportion
  split
  · norm_num
  · next hne =>
    exact round3_nonneg _ (div_nonneg (abs_nonneg _) (le_of_lt (totalMagnitude_pos acc h hne)))

theorem neuProportion_nonneg (acc : ScoreAccumulator) (h : AccBounds acc) :
    0 ≤ neuProportion acc := by
  unfold neuProportion
  split
  · norm_num
  · next hne =>
    exact round3_nonneg _ (div_nonneg h.2.2 (le_of_lt (totalMagnitude_pos acc h hne)))

theorem totalMagnitude_zero : totalMagnitude ⟨0, 0, 0⟩ = 0 := by
  unfold totalMagnitude
  norm_num

/-- C2: `get_sentiment_label` implements the documented thresholds:
`c ≥ 0.05` yields POSITIVE, `c ≤ -0.05` yields NEGATIVE, anything
strictly between yields NEUTRAL; in particular the boundary values
`0.05`, `-0.05` and `0.0` map to POSITIVE, NEGATIVE and NEUTRAL. -/
theorem get_sentiment_label_thresholds :
    (∀ c : ℝ,
      (c ≥ 0.05 → get_sentiment_label c = SentimentLabel.POSITIVE) ∧
      (c ≤ -0.05 → get_sentiment_label c = SentimentLabel.NEGATIVE) ∧
      (-0.05 < c → c < 0.05 → get_sentiment_label c = SentimentLabel.NEUTRAL)) ∧
    get_sentiment_label 0.05 = SentimentLabel.POSITIVE ∧
    get_sentiment_label (-0.05) = SentimentLabel.NEGATIVE ∧
    get_sentiment_label 0.0 = SentimentLabel.NEUTRAL := by
  have core : ∀ c : ℝ,
      (c ≥ 0.05 → get_sentiment_label c = SentimentLabel.POSITIVE) ∧
      (c ≤ -0.05 → get_sentiment_label c = SentimentLabel.NEGATIVE) ∧
      (-0.05 < c → c < 0.05 → get_sentiment_label c = SentimentLabel.NEUTRAL) := by
    intro c
    refine ⟨fun h => ?_, fun h => ?_, fun h1 h2 => ?_⟩
    · simp only [get_sentiment_label, if_pos h]
    · have hneg : ¬ (c ≥ 0.05) := by norm_num at h ⊢; linarith
      simp only [get_sentiment_label, if_neg hneg, if_pos h]
    · have hp : ¬ (c ≥ 0.05) := by norm_num; linarith
      have hn : ¬ (c ≤ -0.05) := by norm_num; linarith
      simp only [get_sentiment_label, if_neg hp, if_neg hn]
  refine ⟨core, (core 0.05).1 (by norm_num), (core (-0.05)).2.1 (by norm_num),
    (core 0.0).2.2 (by norm_num) (by norm_num)⟩

/-- C2 witness: The threshold theorem evaluated at the three boundary
compound scores. -/
theorem get_sentiment_label_thresholds_witness :
    get_sentiment_label 0.05 = SentimentLabel.POSITIVE ∧
    get_sentiment_label (-0.05) = SentimentLabel.NEGATIVE ∧
    get_sentiment_label 0.0 = SentimentLabel.NEUTRAL :=
  ⟨(get_sentiment_label_thresholds.1 0.05).1 (by norm_num),
   (get_sentiment_label_thresholds.1 (-0.05)).2.1 (by norm_num),
   (get_sentiment_label_thresholds.1 0.0).2.2 (by norm_num) (by norm_num)⟩

/-- C1: the compound score of every analysis result lies in the closed
interval from -1 to 1. -/
theorem analyze_compound_in_unit_interval (lex : Lexicon) (text : String) :
    -1 ≤ (SentimentAnalyzer.analyze lex text).compound ∧
      (SentimentAnalyzer.analyze lex text).compound ≤ 1 := by
  have h : (SentimentAnalyzer.analyze lex text).compound
      = compoundOf (scoreTokens lex (tokenize text)) := rfl
  rw [h]
  exact compoundOf_mem _

/-- C5: analyzing the empty string gives compound 0, a NEUTRAL label,
neutral proportion 1, and zero positive and negative proportions. -/
theorem analyze_empty_string (lex : Lexicon) :
    (SentimentAnalyzer.analyze lex "").compound = 0 ∧
    (SentimentAnalyzer.analyze lex "").label = SentimentLabel.NEUTRAL ∧
    (SentimentAnalyzer.analyze lex "").neutral = 1 ∧
    (SentimentAnalyzer.analyze lex "").positive = 0 ∧
    (SentimentAnalyzer.analyze lex "").negative = 0 := by
  have hz : scoreTokens lex (tokenize "") = ⟨0, 0, 0⟩ := rfl
  have hcomp : (SentimentAnalyzer.analyze lex "").compound = 0 := by
    show compoundOf (scoreTokens lex (tokenize "")) = 0
    rw [hz]
    unfold compoundOf
    rw [if_pos totalMagnitude_zero]
  have hlab : (SentimentAnalyzer.analyze lex "").label
      = get_sentiment_label ((SentimentAnalyzer.analyze lex "").compound) := rfl
  rw [hcomp] at hlab
  have hneu : (SentimentAnalyzer.analyze lex "").neutral = 1 := by
    show neuProportion (scoreTokens lex (tokenize "")) = 1
    rw [hz]
    unfold neuProportion
    rw [if_pos totalMagnitude_zero]
  have hpos : (SentimentAnalyzer.analyze lex "").positive = 0 := by
    show posProportion (scoreTokens lex (tokenize "")) = 0
    rw [hz]
    unfold posProportion
    rw [if_pos totalMagnitude_zero]
  have hneg : (SentimentAnalyzer.analyze lex "").negative = 0 := by
    show negProportion (scoreTokens lex (tokenize "")) = 0
    rw [hz]
    unfold negProportion
    rw [if_pos totalMagnitude_zero]
  exact ⟨hcomp, hlab.trans get_sentiment_label_zero, hneu, hpos, hneg⟩

/-- C7 amended: the three returned proportions sum to 1 up to the error of
three roundings to 3 decimal places, i.e. within 3/2000 = 0.0015. -/
theorem analyze_proportions_sum_bounded (lex : Lexicon) (text : String) :
    |(SentimentAnalyzer.analyze lex text).positive
      + (SentimentAnalyzer.analyze lex text).negative
      + (SentimentAnalyzer.analyze lex text).neutral - 1| ≤ 3 / 2000 := by
  have h1 : (SentimentAnalyzer.analyze lex text).positive
      = posProportion (scoreTokens lex (tokenize text)) := rfl
  have h2 : (SentimentAnalyzer.analyze lex text).negative
      = negProportion (scoreTokens lex (tokenize text)) := rfl
  have h3 : (SentimentAnalyzer.analyze lex text).neutral
      = neuProportion (scoreTokens lex (tokenize text)) := rfl
  rw [h1, h2, h3]
  exact proportions_sum_close _

unseal Rat.add Rat.mul Rat.sub Rat.inv Rat.ofScientific in
/-- C7 counterexample: on the text `good bad ok` under `sampleLexicon` the
three returned proportions are each 0.333, so their sum misses 1 by
1/1000, far outside the claimed 1e-6 tolerance. -/
theorem analyze_proportions_sum_cex :
    ¬ (|(SentimentAnalyzer.analyze sampleLexicon "good bad ok").positive
        + (SentimentAnalyzer.analyze sampleLexicon "good bad ok").negative
        + (SentimentAnalyzer.analyze sampleLexicon "good bad ok").neutral - 1|
      ≤ 1 / 1000000) := by
  decide

/-- C8: `analyze_text` raises no error on any input (the analyzer is a
total function, so the re-raising branch is dead code), and the result it
returns is a valid SentimentResult. -/
theorem analyze_text_total_and_valid (lex : Lexicon) (text : String) :
    analyze_text lex text = Except.ok (SentimentAnalyzer.analyze lex text) ∧
    ValidResult (SentimentAnalyzer.analyze lex text) := by
  have hb := scoreTokens_bounds lex (tokenize text)
  refine ⟨rfl, ?_, ?_, ?_, ?_, ?_, ?_, rfl⟩
  · exact posProportion_nonneg _ hb
  · exact negProportion_nonneg _ hb
  · exact neuProportion_nonneg _ hb
  · exact analyze_proportions_sum_bounded lex text
  · exact (compoundOf_mem _).1
  · exact (compoundOf_mem _).2


theorem huggingface_attempt_ok_shape (apiKey : Option String) (outcome : HFOutcome)
    (text : String) (sr : SentimentResult)
    (h : huggingface_attempt apiKey outcome text = Except.ok sr) :
    sr.provider = APIProvider.huggingface ∧ sr.text = text ∧
    ((sr.sentiment = "positive" ∧ 0 ≤ sr.score) ∨
     (sr.sentiment = "negative" ∧ sr.score ≤ 0) ∨
     (sr.sentiment = "neutral" ∧ sr.score = 0)) := by
  unfold huggingface_attempt at h
  split at h
  · cases h
  · split at h
    · cases h
    · split at h
      · cases h
      · split at h
        · split at h
          · rename_i lbl hlbl
            injection h with h'
            subst h'
            refine ⟨rfl, rfl, ?_⟩
            by_cases hp : lowerStr lbl = "positive"
            · refine Or.inl ⟨by simp only [if_pos hp], ?_⟩
              simp only [if_pos hp, mul_one]
              exact abs_nonneg _
            · by_cases hn : lowerStr lbl = "negative"
              · refine Or.inr (Or.inl ⟨by simp only [if_neg hp, if_pos hn], ?_⟩)
                simp only [if_neg hp, if_pos hn, mul_neg, mul_one]
                exact neg_nonpos.mpr (abs_nonneg _)
              · refine Or.inr (Or.inr ⟨by simp only [if_neg hp, if_neg hn], ?_⟩)
                simp only [if_neg hp, if_neg hn, mul_zero]
          · cases h
        · cases h

theorem retryExpo_ok (f : ℕ → Except ExternalAPIError SentimentResult)
    (n i : ℕ) (sr : SentimentResult) (h : (retryExpo f i n).1 = Except.ok sr) :
    ∃ j, f j = Except.ok sr := by
  induction n using Nat.strong_induction_on generalizing i with
  | _ n ih =>
    match n with
    | 0 => simp [retryExpo] at h
    | 1 => exact ⟨i, h⟩
    | (m+2) =>
      rw [retryExpo] at h
      cases hf : f i with
      | ok a =>
        rw [hf] at h
        simp at h
        exact ⟨i, by rw [hf, h]⟩
      | error e =>
        rw [hf] at h
        simp only at h
        exact ih (m+1) (by omega) (i+1) h

theorem analyze_ok_shape (apiKey : Option String) (outcomes : ℕ → HFOutcome)
    (text : String) (provider : Option APIProvider) (sr : SentimentResult)
    (h : SentimentAnalysisAPI.analyze apiKey outcomes text provider = Except.ok sr) :
    sr.provider = APIProvider.huggingface ∧ sr.text = text ∧
    ((sr.sentiment = "positive" ∧ 0 ≤ sr.score) ∨
     (sr.sentiment = "negative" ∧ sr.score ≤ 0) ∨
     (sr.sentiment = "neutral" ∧ sr.score = 0)) := by
  unfold SentimentAnalysisAPI.analyze at h
  split at h
  · cases h
  · split at h
    · split at h
      · next heq =>
        injection h with h'
        subst h'
        obtain ⟨j, hj⟩ := retryExpo_ok _ MAX_TRIES 0 _ heq
        exact huggingface_attempt_ok_shape apiKey (outcomes j) text _ hj
      · cases h
    · cases h

unseal Rat.add Rat.mul Rat.sub Rat.inv Rat.ofScientific in
/-- C3 counterexample: for the unsupported provider name `openai` (with the
API key set and a working HuggingFace endpoint), `analyze_with_external_api`
does not surface an unsupported-provider error: it silently substitutes the
HuggingFace provider and returns its successful result. -/
theorem unsupported_provider_masked_cex :
    analyze_with_external_api (some "k") okOutcomes "hi" (some "openai")
      = Except.ok ⟨"hi", APIProvider.huggingface, "positive", 9/10, 9/10⟩ := by
  rfl

/-- C3 amended: a provider string that names no supported provider is
silently replaced by the HuggingFace provider (after a logged warning), so
the call behaves exactly as if `huggingface` had been requested; no
unsupported-provider error reaches the caller of
`analyze_with_external_api`. -/
theorem unsupported_provider_defaults (apiKey : Option String)
    (outcomes : ℕ → HFOutcome) (text s : String)
    (h : APIProvider.ofString (lowerStr s) = none) :
    analyze_with_external_api apiKey outcomes text (some s)
      = analyze_with_external_api apiKey outcomes text (some "huggingface") := by
  have hhf : convertProvider (some "huggingface") = some APIProvider.huggingface := rfl
  have key : ∀ p1 p2 : Option APIProvider,
      providerUnsupported p1 = false → providerUnsupported p2 = false →
      SentimentAnalysisAPI.analyze apiKey outcomes text p1
        = SentimentAnalysisAPI.analyze apiKey outcomes text p2 := by
    intro p1 p2 hp1 hp2
    unfold SentimentAnalysisAPI.analyze
    rw [hp1, hp2]
  by_cases hs : s = ""
  · subst hs
    unfold analyze_with_external_api
    rw [show convertProvider (some "") = none from rfl, hhf,
      key none (some APIProvider.huggingface) rfl rfl]
  · have hcv : convertProvider (some s) = some APIProvider.huggingface := by
      show (if s = "" then none
        else match APIProvider.ofString (lowerStr s) with
          | some p => some p
          | none => some APIProvider.huggingface) = some APIProvider.huggingface
      rw [if_neg hs, h]
    unfold analyze_with_external_api
    rw [hcv, hhf]

/-- C3 amended witness: the amended theorem applied to the concrete
unsupported provider name `openai`. -/
theorem unsupported_provider_defaults_witness :
    APIProvider.ofString (lowerStr "openai") = none ∧
    analyze_with_external_api (some "k") okOutcomes "hello" (some "openai")
      = analyze_with_external_api (some "k") okOutcomes "hello" (some "huggingface") :=
  ⟨rfl, unsupported_provider_defaults (some "k") okOutcomes "hello" "openai" rfl⟩

unseal Rat.add Rat.mul Rat.sub Rat.inv Rat.ofScientific in
/-- C4 counterexample: a successful call of `analyze_with_external_api`
returns a dict whose keys are `text`, `provider`, `sentiment`, `score`,
`confidence`; none of the core shape's keys `positive`, `negative`,
`neutral`, `compound`, `label` is present. -/
theorem external_result_shape_cex :
    analyze_with_external_api (some "k") okOutcomes "great" none
      = Except.ok ⟨"great", APIProvider.huggingface, "positive", 9/10, 9/10⟩ ∧
    dictKeys (ExternalResult.toDict
        ⟨"great", APIProvider.huggingface, "positive", 9/10, 9/10⟩)
      = ["text", "provider", "sentiment", "score", "confidence"] ∧
    "positive" ∉ dictKeys (ExternalResult.toDict
        ⟨"great", APIProvider.huggingface, "positive", 9/10, 9/10⟩) ∧
    "negative" ∉ dictKeys (ExternalResult.toDict
        ⟨"great", APIProvider.huggingface, "positive", 9/10, 9/10⟩) ∧
    "neutral" ∉ dictKeys (ExternalResult.toDict
        ⟨"great", APIProvider.huggingface, "positive", 9/10, 9/10⟩) ∧
    "compound" ∉ dictKeys (ExternalResult.toDict
        ⟨"great", APIProvider.huggingface, "positive", 9/10, 9/10⟩) ∧
    "label" ∉ dictKeys (ExternalResult.toDict
        ⟨"great", APIProvider.huggingface, "positive", 9/10, 9/10⟩) := by
  refine ⟨by rfl, rfl, by decide, by decide, by decide, by decide, by decide⟩

/-- C4 amended: every successful result of `analyze_with_external_api`
conforms to the flat `text`/`provider`/`sentiment`/`score`/`confidence`
shape (the shape of the route-level `SentimentResponse`), echoing the
input text and carrying `confidence = abs(score)`; it does not carry the
core analyzer's `positive`/`negative`/`neutral`/`compound`/`label` keys. -/
theorem external_result_shape (apiKey : Option String) (outcomes : ℕ → HFOutcome)
    (text : String) (provider : Option String) (r : ExternalResult)
    (h : analyze_with_external_api apiKey outcomes text provider = Except.ok r) :
    dictKeys (ExternalResult.toDict r)
      = ["text", "provider", "sentiment", "score", "confidence"] ∧
    r.text = text ∧ r.confidence = |r.score| := by
  unfold analyze_with_external_api at h
  split at h
  · injection h with h'
    subst h'
    exact ⟨rfl, rfl, rfl⟩
  · cases h

unseal Rat.add Rat.mul Rat.sub Rat.inv Rat.ofScientific in
/-- C4 amended witness: the amended shape theorem applied to a concrete
successful call. -/
theorem external_result_shape_witness :
    dictKeys (ExternalResult.toDict
        ⟨"wow", APIProvider.huggingface, "positive", 9/10, 9/10⟩)
      = ["text", "provider", "sentiment", "score", "confidence"] ∧
    ExternalResult.text ⟨"wow", APIProvider.huggingface, "positive", 9/10, 9/10⟩ = "wow" ∧
    ExternalResult.confidence ⟨"wow", APIProvider.huggingface, "positive", 9/10, 9/10⟩
      = |ExternalResult.score ⟨"wow", APIProvider.huggingface, "positive", 9/10, 9/10⟩| :=
  external_result_shape (some "k") okOutcomes "wow" none
    ⟨"wow", APIProvider.huggingface, "positive", 9/10, 9/10⟩ (by rfl)

/-- C6: when every attempt against the HuggingFace endpoint fails,
`analyze_with_huggingface` makes exactly `MAX_TRIES = 3` attempts,
waits the exponential backoff schedule 1, 2 between them, returns the
final attempt's outcome, and that outcome is an error (never a success). -/
theorem huggingface_retry_bounded (apiKey : Option String)
    (outcomes : ℕ → HFOutcome) (text : String)
    (h : ∀ i, i < MAX_TRIES →
      ∃ e, huggingface_attempt apiKey (outcomes i) text = Except.error e) :
    (analyze_with_huggingface apiKey outcomes text).2.1 = MAX_TRIES ∧
    (analyze_with_huggingface apiKey outcomes text).2.2
      = [backoffWait 0, backoffWait 1] ∧
    (analyze_with_huggingface apiKey outcomes text).1
      = huggingface_attempt apiKey (outcomes 2) text ∧
    ∀ r, (analyze_with_huggingface apiKey outcomes text).1 ≠ Except.ok r := by
  obtain ⟨e0, he0⟩ := h 0 (by norm_num [MAX_TRIES])
  obtain ⟨e1, he1⟩ := h 1 (by norm_num [MAX_TRIES])
  obtain ⟨e2, he2⟩ := h 2 (by norm_num [MAX_TRIES])
  unfold analyze_with_huggingface MAX_TRIES
  show ((retryExpo _ 0 3).2.1 = 3) ∧ _
  rw [show (3:ℕ) = 1 + 2 from rfl, retryExpo, he0]
  simp only []
  rw [show (1:ℕ) + 1 = 0 + 2 from rfl, retryExpo, he1]
  simp only []
  rw [retryExpo]
  refine ⟨rfl, rfl, rfl, ?_⟩
  intro r hr
  rw [he2] at hr
  cases hr

/-- C6 witness: the retry theorem applied to a fixture where every attempt
raises a request exception. -/
theorem huggingface_retry_bounded_witness :
    (analyze_with_huggingface (some "k") failOutcomes "hello").2.1 = MAX_TRIES ∧
    (analyze_with_huggingface (some "k") failOutcomes "hello").2.2
      = [backoffWait 0, backoffWait 1] ∧
    (analyze_with_huggingface (some "k") failOutcomes "hello").1
      = huggingface_attempt (some "k") (failOutcomes 2) "hello" ∧
    ∀ r, (analyze_with_huggingface (some "k") failOutcomes "hello").1 ≠ Except.ok r :=
  huggingface_retry_bounded (some "k") failOutcomes "hello"
    (fun _ _ => ⟨⟨"HuggingFace", "connection timed out", none⟩, rfl⟩)

/-- C9: every successful result of `analyze_with_external_api` has a score
whose sign agrees with its sentiment string, and a confidence equal to the
absolute value of the score. -/
theorem external_score_sign_consistent (apiKey : Option String)
    (outcomes : ℕ → HFOutcome) (text : String) (provider : Option String)
    (r : ExternalResult)
    (h : analyze_with_external_api apiKey outcomes text provider = Except.ok r) :
    (r.sentiment = "positive" → 0 ≤ r.score) ∧
    (r.sentiment = "negative" → r.score ≤ 0) ∧
    (r.sentiment = "neutral" → r.score = 0) ∧
    r.confidence = |r.score| := by
  unfold analyze_with_external_api at h
  split at h
  · next sr heq =>
    injection h with h'
    subst h'
    obtain ⟨hprov, htext, hdisj⟩ :=
      analyze_ok_shape apiKey outcomes text (convertProvider provider) sr heq
    refine ⟨?_, ?_, ?_, rfl⟩
    · intro hs
      rcases hdisj with ⟨h1, h2⟩ | ⟨h1, h2⟩ | ⟨h1, h2⟩
      · exact h2
      · exact absurd (h1.symm.trans hs) (by decide)
      · exact absurd (h1.symm.trans hs) (by decide)
    · intro hs
      rcases hdisj with ⟨h1, h2⟩ | ⟨h1, h2⟩ | ⟨h1, h2⟩
      · exact absurd (h1.symm.trans hs) (by decide)
      · exact h2
      · exact absurd (h1.symm.trans hs) (by decide)
    · intro hs
      rcases hdisj with ⟨h1, h2⟩ | ⟨h1, h2⟩ | ⟨h1, h2⟩
      · exact absurd (h1.symm.trans hs) (by decide)
      · exact absurd (h1.symm.trans hs) (by decide)
      · exact h2
  · cases h

unseal Rat.add Rat.mul Rat.sub Rat.inv Rat.ofScientific in
/-- C9 witness: the sign-consistency theorem applied to a concrete
successful call. -/
theorem external_score_sign_consistent_witness :
    (ExternalResult.sentiment ⟨"hi5", APIProvider.huggingface, "positive", 9/10, 9/10⟩
        = "positive" →
      0 ≤ ExternalResult.score ⟨"hi5", APIProvider.huggingface, "positive", 9/10, 9/10⟩) ∧
    (ExternalResult.sentiment ⟨"hi5", APIProvider.huggingface, "positive", 9/10, 9/10⟩
        = "negative" →
      ExternalResult.score ⟨"hi5", APIProvider.huggingface, "positive", 9/10, 9/10⟩ ≤ 0) ∧
    (ExternalResult.sentiment ⟨"hi5", APIProvider.huggingface, "positive", 9/10, 9/10⟩
        = "neutral" →
      ExternalResult.score ⟨"hi5", APIProvider.huggingface, "positive", 9/10, 9/10⟩ = 0) ∧
    ExternalResult.confidence ⟨"hi5", APIProvider.huggingface, "positive", 9/10, 9/10⟩
      = |ExternalResult.score ⟨"hi5", APIProvider.huggingface, "positive", 9/10, 9/10⟩| :=
  external_score_sign_consistent (some "k") okOutcomes "hi5" none
    ⟨"hi5", APIProvider.huggingface, "positive", 9/10, 9/10⟩ (by rfl)


/-- C10: the history endpoint returns exactly the requesting user's rows:
every returned entry comes from a row of that user, every row of that user
is returned, and the response is unchanged under any modification of the
database that preserves the user's own rows (other users' history cannot
affect it). -/
theorem history_only_own_records (db : List Analysis) (uid : ℕ) :
    (∀ e ∈ get_analysis_history db uid,
      ∃ a ∈ db, a.user_id = uid ∧ e = historyEntryOf a) ∧
    (∀ a ∈ db, a.user_id = uid →
      historyEntryOf a ∈ get_analysis_history db uid) ∧
    (∀ db2 : List Analysis,
      db.filter (fun a => a.user_id = uid) = db2.filter (fun a => a.user_id = uid) →
      get_analysis_history db uid = get_analysis_history db2 uid) := by
  refine ⟨?_, ?_, ?_⟩
  · intro e he
    unfold get_analysis_history at he
    obtain ⟨a, ha, hae⟩ := List.mem_map.mp he
    have hf := List.mem_filter.mp ha
    exact ⟨a, hf.1, by simpa using hf.2, hae.symm⟩
  · intro a ha hu
    unfold get_analysis_history
    exact List.mem_map_of_mem _ (List.mem_filter.mpr ⟨ha, by simpa using hu⟩)
  · intro db2 hdb
    unfold get_analysis_history
    rw [hdb]

/-- C10 witness: with a two-user database, user 1's own row appears in
user 1's history, and deleting user 2's row leaves that history
unchanged. -/
theorem history_only_own_records_witness :
    historyEntryOf analysisA ∈ get_analysis_history [analysisA, analysisB] 1 ∧
    get_analysis_history [analysisA, analysisB] 1 = get_analysis_history [analysisA] 1 :=
  ⟨(history_only_own_records [analysisA, analysisB] 1).2.1 analysisA
      (List.mem_cons_self _ _) rfl,
   (history_only_own_records [analysisA, analysisB] 1).2.2 [analysisA] (by decide)⟩
